import Mathlib

/-!
Verification of `cronjob/ineo_labeling/ineo_labeling.py`: the provider-rule
data model, the per-record resolver `_is_ineo_record`, the mapping parser
`parse_mapping_file` / `_add_provider`, the paginated fetch
`fetch_solr_records`, and the labeling pipeline `_label_ineo_records` /
`label_ineo_records`.

The embedding is shallow: Python dict fields become `Option`-valued structure
fields, a raised exception becomes `Except.error`, Python `==` between
heterogeneously typed values is modelled explicitly (`pyEqWeight`), and the
network is abstracted as a function argument where a claim needs it.
-/

namespace IneoLabeling

/-- A JSON value as it can appear in the Solr field `_hierarchyWeight`:
either an integer or a string (the spec notes the level is "possibly
transmitted as a string"). -/
inductive JVal where
  | str (s : String)
  | int (n : Int)
deriving DecidableEq, Repr

/-- A Solr document as `_is_ineo_record` reads it: `doc["id"]` (required),
`doc.get("dataProvider", None)`, `doc.get("_componentProfileId", None)`,
`doc.get("_hierarchyWeight", None)`. -/
structure Doc where
  id : String
  dataProvider : Option String
  componentProfileId : Option String
  hierarchyWeight : Option JVal
deriving DecidableEq, Repr

/-- One provider rule, as `_add_provider` constructs it: `name` from the
`name` attribute (may be absent), optional `profile` text, optional integer
`level`, optional boolean `default`. -/
structure Provider where
  name : Option String
  profile : Option String
  level : Option Int
  default : Option Bool
deriving DecidableEq, Repr

/-- Modelled from the spec: the `Providers` class is defined in
`ineo_classes`, which is not among the sources. Its fields are exactly the
ones the script uses: the global `default` (a boolean after parsing), the
`providers` list and the parallel `provider_keys` list (spec section 3,
ProviderRegistry). -/
structure Providers where
  default : Bool
  providers : List Provider
  provider_keys : List (Option String)
deriving DecidableEq, Repr

/-- Modelled from the spec: `Providers.get_provider` is defined in
`ineo_classes`, which is not among the sources; spec section 4.2: return the
first rule whose `name` equals the argument, else null. -/
def Providers.get_provider (m : Providers) (name : String) : Option Provider :=
  m.providers.find? (fun p => p.name == some name)

/-- Well-formedness invariant of a `Providers` value as the parser builds it:
`provider_keys` is exactly the list of rule names, in order (`_add_provider`
appends to both lists in lockstep). -/
def Providers.wf (m : Providers) : Prop :=
  m.provider_keys = m.providers.map Provider.name

/-- Python `==` between the record value `doc.get("_hierarchyWeight")` (int,
string, or None) and the rule value `provider.level` (int or None): values of
different types are never equal, so a string level never equals an integer
rule level. -/
def pyEqWeight : Option JVal → Option Int → Bool
  | none, none => true
  | none, some _ => false
  | some _, none => false
  | some (.int n), some l => n == l
  | some (.str _), some _ => false

/-- Reads a list of decimal digit characters as a natural number; none when
the list is empty or holds a non-digit. Helper for `pyInt`. -/
def digitsToNat (cs : List Char) : Option Nat :=
  if cs.isEmpty then none
  else cs.foldl (fun acc c =>
    match acc with
    | none => none
    | some n => if c.isDigit then some (10 * n + (c.toNat - 48)) else none) (some 0)

/-- Python `int(s)` on a string: an optional sign followed by decimal digits;
any other shape raises, modelled as `none`. (Python also tolerates
surrounding whitespace and underscores between digits; no claim depends on
those inputs.) -/
def pyInt (s : String) : Option Int :=
  match s.toList with
  | '-' :: cs => (digitsToNat cs).map (fun n => -(n : Int))
  | '+' :: cs => (digitsToNat cs).map (fun n => (n : Int))
  | cs => (digitsToNat cs).map (fun n => (n : Int))

/-- Numeric normalization of a transmitted level value (spec sections 4.3b
and 9): an integer is itself, a string is read as an integer when possible.
Used only to state claims about numeric equality; the source code does not
normalize. -/
def normWeight : JVal → Option Int
  | .int n => some n
  | .str s => pyInt s

/-- `_is_ineo_record(doc, mapping)` (source lines 170-203). A raised
`ValueError` is `Except.error`. The profile and level guards are transcribed
exactly as written: each tests the record-side value for `None` twice and
never tests the rule-side value. The branch where a provider key has no
matching provider object cannot be reached on a well-formed registry (in
Python it would be an `AttributeError` on `None`). -/
def _is_ineo_record (doc : Doc) (mapping : Providers) : Except String Bool :=
  match doc.dataProvider with
  | none => .error "Provider name is missing in the Solr record."
  | some provider_name =>
    if (some provider_name) ∈ mapping.provider_keys then
      match mapping.get_provider provider_name with
      | none => .error "provider key without a provider object"
      | some rule =>
        if doc.componentProfileId.isSome && doc.componentProfileId.isSome
            && (doc.componentProfileId == rule.profile) then
          .ok true
        else if doc.hierarchyWeight.isSome && doc.hierarchyWeight.isSome
            && pyEqWeight doc.hierarchyWeight rule.level then
          .ok true
        else
          match rule.default with
          | some d => .ok d
          | none => .ok false
    else
      .ok mapping.default

/-- An XML element as `xml.etree.ElementTree` exposes it to this script: a
tag, an attribute list, optional text, and child elements. -/
inductive XMLNode where
  | mk (tag : String) (attrs : List (String × String)) (text : Option String)
      (children : List XMLNode)

/-- The element's tag. -/
def XMLNode.tag : XMLNode → String
  | .mk t _ _ _ => t

/-- The element's attribute list. -/
def XMLNode.attrs : XMLNode → List (String × String)
  | .mk _ a _ _ => a

/-- The element's text (`None` for an empty element such as level with no
content). -/
def XMLNode.text : XMLNode → Option String
  | .mk _ _ t _ => t

/-- The element's direct children. -/
def XMLNode.children : XMLNode → List XMLNode
  | .mk _ _ _ c => c

/-- `element.get(key, None)`: attribute lookup. -/
def XMLNode.get (e : XMLNode) (key : String) : Option String :=
  (e.attrs.find? (fun a => a.1 == key)).map (fun a => a.2)

/-- `element.findall(tag)`: all direct children with the tag, in document
order. -/
def XMLNode.findall (e : XMLNode) (t : String) : List XMLNode :=
  e.children.filter (fun c => c.tag == t)

/-- `element.find(tag)`: the first direct child with the tag, if any. -/
def XMLNode.find (e : XMLNode) (t : String) : Option XMLNode :=
  e.children.find? (fun c => c.tag == t)

/-- The level-parsing step of `_add_provider` (source lines 61-65):
`int(level_node.text)` raises on a missing-text node (`int(None)`) and on a
non-integer literal; no level element yields `None`. -/
def parseLevelNode : Option XMLNode → Except String (Option Int)
  | none => .ok none
  | some nd =>
    match nd.text with
    | none => .error "int() argument must be a string, not NoneType"
    | some s =>
      match pyInt s with
      | none => .error ("invalid literal for int() with base 10: " ++ s)
      | some i => .ok (some i)

/-- `_add_provider(providers, provider)` (source lines 51-84): builds one
`Provider` from the element and appends it, and its name, to the registry's
two lists. A `ValueError` or `TypeError` from `int()` is `Except.error`. -/
def _add_provider (providers : Providers) (provider : XMLNode) :
    Except String Providers :=
  let provider_name := provider.get "name"
  let provider_profile :=
    match provider.find "profile" with
    | none => none
    | some nd => nd.text
  match parseLevelNode (provider.find "level") with
  | .error e => .error e
  | .ok provider_level =>
    let provider_default :=
      match provider.find "default" with
      | none => none
      | some nd => some (nd.text == some "true")
    .ok { providers with
      providers := providers.providers
        ++ [⟨provider_name, provider_profile, provider_level, provider_default⟩],
      provider_keys := providers.provider_keys ++ [provider_name] }

/-- The first loop of `parse_mapping_file` (source lines 101-108): iterates
`mapping_tree.findall("provider") or mapping_tree.findall("root")` binding
only the locals `provider_name` and `provider_profile`; its value (the last
iteration's bindings) is discarded by the caller. -/
def deadLoopPass (tree : XMLNode) : Option (Option String × Option String) :=
  (if (tree.findall "provider").isEmpty then tree.findall "root"
   else tree.findall "provider").foldl
    (fun _ p =>
      some (p.get "name",
        match p.find "profile" with
        | none => none
        | some nd => nd.text))
    none

/-- `parse_mapping_file(mapping_tree)` (source lines 87-115): global default
from the `default` attribute ("true" means true, anything else, absence
included, means false), then the no-effect first loop, then `_add_provider`
over all `provider` elements followed by all `root` elements. -/
def parse_mapping_file (tree : XMLNode) : Except String Providers :=
  let d := if tree.get "default" = some "true" then true else false
  let providers0 : Providers := ⟨d, [], []⟩
  let _scratch := deadLoopPass tree
  match (tree.findall "provider").foldlM _add_provider providers0 with
  | .error e => .error e
  | .ok p1 =>
    match (tree.findall "root").foldlM _add_provider p1 with
    | .error e => .error e
    | .ok p2 => .ok p2

/-- `parse_mapping_file` with its first (dead) loop removed; the comparison
point for the refinement claim about that loop. -/
def parse_mapping_file_without_first_loop (tree : XMLNode) :
    Except String Providers :=
  let d := if tree.get "default" = some "true" then true else false
  let providers0 : Providers := ⟨d, [], []⟩
  match (tree.findall "provider").foldlM _add_provider providers0 with
  | .error e => .error e
  | .ok p1 =>
    match (tree.findall "root").foldlM _add_provider p1 with
    | .error e => .error e
    | .ok p2 => .ok p2

/-- The page offsets `range(0, total_records, 10000)` that
`fetch_solr_records` submits (source line 147). -/
def pageStarts (total : Nat) : List Nat :=
  (List.range ((total + 10000 - 1) / 10000)).map (fun i => i * 10000)

/-- `fetch_solr_records` (source lines 134-155) after the zero-row count
query: one page request per start with `rows=10000`, results merged into one
list. The network is abstracted as `page start rows`; the source gathers
pages in `as_completed` order, which does not affect the merged count. -/
def fetch_solr_records (page : Nat → Nat → List Doc) (numFound : Nat) :
    List Doc :=
  ((pageStarts numFound).map (fun s => page s 10000)).flatten

/-- One entry of the update payload `_label_ineo_records` builds:
the document id and the boolean written via the set operation on the
ineo_record field. -/
structure UpdatePayload where
  id : String
  ineo_record_set : Bool
deriving DecidableEq, Repr

/-- `_label_ineo_records(docs, mapping)` (source lines 206-227): one pass
over the documents calling `_is_ineo_record` with no exception handling, so
a raised `ValueError` propagates and aborts the whole pass. The fold state
is the logged tallies (`good` = labeled true, `bad` = labeled false; there
is no error tally) and the payload list the function returns. -/
def _label_ineo_records (docs : List Doc) (mapping : Providers) :
    Except String (Nat × Nat × List UpdatePayload) :=
  docs.foldlM
    (fun acc doc =>
      match _is_ineo_record doc mapping with
      | .error e => .error e
      | .ok ineo_record =>
        .ok (if ineo_record then acc.1 + 1 else acc.1,
             if ineo_record then acc.2.1 else acc.2.1 + 1,
             acc.2.2 ++ [⟨doc.id, ineo_record⟩]))
    (0, 0, [])

/-- The update phase of `label_ineo_records` (source lines 239-241): every
payload entry is submitted to `update_solr_records` through `executor.map`,
whose lazy result iterator the code never consumes, and the function returns
`None`. The first component is the outcome each submitted update would
yield (ok, or the error `raise_for_status` raises); the second is the
aggregate outcome the function reports — `none`, since no result is ever
awaited and nothing is returned. -/
def label_ineo_records_update_phase
    (update : UpdatePayload → Except String Unit)
    (update_docs : List UpdatePayload) :
    List (Except String Unit) × Option (Nat × Nat × List (String × String)) :=
  (update_docs.map update, none)

/-- The resolver with the spec's fully guarded steps (spec section 4.3,
steps a and b): each structural branch additionally tests the rule-side
value for non-null, under the same exact equality. Written from the spec's
words as the comparison point for the refinement claim about the source's
unguarded branches; everything else is identical to `_is_ineo_record`. -/
def _is_ineo_record_spec_guarded (doc : Doc) (mapping : Providers) :
    Except String Bool :=
  match doc.dataProvider with
  | none => .error "Provider name is missing in the Solr record."
  | some provider_name =>
    if (some provider_name) ∈ mapping.provider_keys then
      match mapping.get_provider provider_name with
      | none => .error "provider key without a provider object"
      | some rule =>
        if rule.profile.isSome && doc.componentProfileId.isSome
            && (doc.componentProfileId == rule.profile) then
          .ok true
        else if rule.level.isSome && doc.hierarchyWeight.isSome
            && pyEqWeight doc.hierarchyWeight rule.level then
          .ok true
        else
          match rule.default with
          | some d => .ok d
          | none => .ok false
    else
      .ok mapping.default

/-- On a well-formed registry, a successful lookup implies the looked-up
name is among the registry's keys. -/
theorem Providers.mem_keys_of_get_provider {m : Providers} {n : String}
    {rule : Provider} (hwf : m.wf) (h : m.get_provider n = some rule) :
    (some n) ∈ m.provider_keys := by
  have h' : m.providers.find? (fun p => p.name == some n) = some rule := h
  have hmem : rule ∈ m.providers := List.mem_of_find?_eq_some h'
  have hbeq := List.find?_some h'
  have hname : rule.name = some n := by simpa using hbeq
  rw [hwf]
  exact List.mem_map.mpr ⟨rule, hmem, hname⟩

/-- On a well-formed registry, a name among the keys has a rule: the
membership test of `_is_ineo_record` implies `get_provider` succeeds. -/
theorem Providers.get_provider_isSome_of_mem_keys {m : Providers}
    {n : String} (hwf : m.wf) (h : (some n) ∈ m.provider_keys) :
    ∃ rule, m.get_provider n = some rule := by
  rw [hwf] at h
  obtain ⟨p, hp, hpn⟩ := List.mem_map.mp h
  have : (m.providers.find? (fun q => q.name == some n)).isSome :=
    List.find?_isSome.mpr ⟨p, hp, by simpa using hpn⟩
  exact Option.isSome_iff_exists.mp this

/-- `_add_provider` preserves the keys-parallel-to-rules invariant: it
appends one element to each list. -/
theorem _add_provider_wf {m m' : Providers} {e : XMLNode} (hwf : m.wf)
    (h : _add_provider m e = .ok m') : m'.wf := by
  unfold _add_provider at h
  cases hlev : parseLevelNode (e.find "level") with
  | error msg => rw [hlev] at h; cases h
  | ok lv =>
    rw [hlev] at h
    cases h
    have hwf' : m.provider_keys = m.providers.map Provider.name := hwf
    simp [Providers.wf, hwf']

/-- Folding `_add_provider` over any element list preserves the invariant. -/
theorem foldlM_add_provider_wf :
    ∀ (es : List XMLNode) (m m' : Providers), m.wf →
      es.foldlM _add_provider m = .ok m' → m'.wf := by
  intro es
  induction es with
  | nil => intro m m' hwf h; cases h; exact hwf
  | cons e es ih =>
    intro m m' hwf h
    rw [List.foldlM_cons] at h
    cases hstep : _add_provider m e with
    | error msg => rw [hstep] at h; cases h
    | ok m1 =>
      rw [hstep] at h
      exact ih m1 m' (_add_provider_wf hwf hstep) h

/-- Every registry `parse_mapping_file` produces is well-formed: its key
list is the name list of its rules. -/
theorem parse_mapping_file_wf {t : XMLNode} {m : Providers}
    (h : parse_mapping_file t = .ok m) : m.wf := by
  simp only [parse_mapping_file] at h
  cases h1 : (t.findall "provider").foldlM _add_provider
      ⟨(if t.get "default" = some "true" then true else false), [], []⟩ with
  | error msg => rw [h1] at h; cases h
  | ok p1 =>
    simp only [h1] at h
    cases h2 : (t.findall "root").foldlM _add_provider p1 with
    | error msg => simp only [h2] at h; cases h
    | ok p2 =>
      simp only [h2, Except.ok.injEq] at h
      cases h
      have w0 : Providers.wf
          ⟨(if t.get "default" = some "true" then true else false), [], []⟩ := rfl
      exact foldlM_add_provider_wf _ _ _
        (foldlM_add_provider_wf _ _ _ w0 h1) h2

example : pyEqWeight (some (JVal.str "0")) (some 0) = false := by decide
example : normWeight (JVal.str "0") = some 0 := by decide

/-- C4: for every record whose dataProvider names a registry rule with
non-null profile equal to the record's componentProfileId, the resolver
returns true, regardless of that rule's level and default fields and of the
global default. -/
theorem c4_profile_match_returns_true (doc : Doc) (m : Providers)
    (n : String) (rule : Provider) (p : String)
    (hwf : m.wf) (hdp : doc.dataProvider = some n)
    (hget : m.get_provider n = some rule)
    (hrp : rule.profile = some p) (hcp : doc.componentProfileId = some p) :
    _is_ineo_record doc m = Except.ok true := by
  have hmem := Providers.mem_keys_of_get_provider hwf hget
  simp [_is_ineo_record, hdp, hmem, hget, hrp, hcp]

/-- Registry and record for the profile-match witness. -/
def mapC4 : Providers :=
  ⟨false, [⟨some "Acme", some "P1", some 7, some false⟩], [some "Acme"]⟩

/-- Record matching mapC4's rule by profile. -/
def docC4 : Doc := ⟨"r1", some "Acme", some "P1", none⟩

/-- C4 witness: concrete profile match resolves to true even though the
rule's level does not match, its default is false, and the global default is
false. -/
theorem c4_profile_match_returns_true_witness :
    _is_ineo_record docC4 mapC4 = Except.ok true :=
  c4_profile_match_returns_true docC4 mapC4 "Acme"
    ⟨some "Acme", some "P1", some 7, some false⟩ "P1"
    rfl rfl (by decide) rfl rfl

/-- C5: for every record whose provider is registered but whose profile does
not match the rule's profile and whose level does not match the rule's
level (numeric normalization included), the resolver returns the rule's
default when it is non-null and false when it is null. -/
theorem c5_fallback_rule_default (doc : Doc) (m : Providers)
    (n : String) (rule : Provider)
    (hwf : m.wf) (hdp : doc.dataProvider = some n)
    (hget : m.get_provider n = some rule)
    (hprof : ∀ p : String, rule.profile = some p →
      doc.componentProfileId ≠ some p)
    (hlev : ∀ (l : Int) (v : JVal), rule.level = some l →
      doc.hierarchyWeight = some v → normWeight v ≠ some l) :
    _is_ineo_record doc m = Except.ok (rule.default.getD false) := by
  have hmem := Providers.mem_keys_of_get_provider hwf hget
  have h1 : ¬(doc.componentProfileId.isSome = true
      ∧ doc.componentProfileId = rule.profile) := by
    rintro ⟨hs, he⟩
    cases hcp : doc.componentProfileId with
    | none => rw [hcp] at hs; exact Bool.false_ne_true hs
    | some p =>
      rw [hcp] at he
      exact hprof p he.symm hcp
  have h2 : ¬(doc.hierarchyWeight.isSome = true
      ∧ pyEqWeight doc.hierarchyWeight rule.level = true) := by
    rintro ⟨hs, he⟩
    cases hhw : doc.hierarchyWeight with
    | none => rw [hhw] at hs; exact Bool.false_ne_true hs
    | some v =>
      rw [hhw] at he
      cases hrl : rule.level with
      | none => rw [hrl] at he; cases v <;> simp [pyEqWeight] at he
      | some l =>
        rw [hrl] at he
        cases v with
        | str s => simp [pyEqWeight] at he
        | int k =>
          have hkl : k = l := by simpa [pyEqWeight] using he
          exact hlev l (.int k) hrl hhw (by simp [normWeight, hkl])
  cases hd : rule.default with
  | none => simp [_is_ineo_record, hdp, hmem, hget, h1, h2, hd]
  | some d => simp [_is_ineo_record, hdp, hmem, hget, h1, h2, hd]

/-- Registry for the default-fallback witness: rule with a non-matching
profile, a non-matching level, and default true, under global default
false. -/
def mapC5 : Providers :=
  ⟨false, [⟨some "DANS", some "P1", some 0, some true⟩], [some "DANS"]⟩

/-- Record whose profile and level both fail to match mapC5's rule. -/
def docC5 : Doc :=
  ⟨"r2", some "DANS", some "PX", some (JVal.int 5)⟩

/-- C5 witness: no structural match, so the rule's own default (true) is
returned rather than the global default (false). -/
theorem c5_fallback_rule_default_witness :
    _is_ineo_record docC5 mapC5 = Except.ok true :=
  c5_fallback_rule_default docC5 mapC5 "DANS"
    ⟨some "DANS", some "P1", some 0, some true⟩
    rfl rfl (by decide)
    (fun p hp => by
      have hp' : p = "P1" := by simpa using hp.symm
      subst hp'
      decide)
    (fun l v hl hv => by
      have hl' : l = 0 := by simpa using hl.symm
      have hv' : v = JVal.int 5 := by simpa [docC5] using hv.symm
      subst hl'
      subst hv'
      decide)

/-- C6: for every record whose dataProvider is present but names no rule in
the registry, the resolver returns the registry's global default, whatever
the record's componentProfileId and hierarchyWeight are. -/
theorem c6_unregistered_global_default (doc : Doc) (m : Providers)
    (n : String)
    (hdp : doc.dataProvider = some n)
    (hmem : (some n) ∉ m.provider_keys) :
    _is_ineo_record doc m = Except.ok m.default := by
  simp [_is_ineo_record, hdp, hmem]

/-- Record with an unregistered provider, a profile and a weight. -/
def docC6 : Doc :=
  ⟨"r3", some "Unknown", some "P1", some (JVal.int 0)⟩

/-- C6 witness: unknown provider falls through to the global default (true
here) although both a profile and a weight are present. -/
theorem c6_unregistered_global_default_witness :
    _is_ineo_record docC6 ⟨true, [⟨some "Acme", some "P1", some 0, none⟩],
      [some "Acme"]⟩ = Except.ok true :=
  c6_unregistered_global_default docC6 _ "Unknown" rfl (by decide)

/-- C7: resolution raises (models the `ValueError`) exactly when the
record's dataProvider is null or absent; when it is present, resolution
returns a boolean and raises nothing. Stated over well-formed registries,
which is every registry `parse_mapping_file` produces
(`parse_mapping_file_wf`). -/
theorem c7_raises_iff_provider_missing (doc : Doc) (m : Providers)
    (hwf : m.wf) :
    (doc.dataProvider = none →
      _is_ineo_record doc m =
        Except.error "Provider name is missing in the Solr record.")
    ∧ (∀ n : String, doc.dataProvider = some n →
        ∃ b : Bool, _is_ineo_record doc m = Except.ok b) := by
  constructor
  · intro h
    simp [_is_ineo_record, h]
  · intro n h
    by_cases hmem : (some n) ∈ m.provider_keys
    · obtain ⟨rule, hget⟩ := Providers.get_provider_isSome_of_mem_keys hwf hmem
      by_cases h1 : (doc.componentProfileId.isSome = true
          ∧ doc.componentProfileId = rule.profile)
      · obtain ⟨hs, he⟩ := h1
        obtain ⟨p, hp⟩ := Option.isSome_iff_exists.mp hs
        have hrp : rule.profile = some p := he.symm.trans hp
        exact ⟨true, by simp [_is_ineo_record, h, hmem, hget, hrp, hp]⟩
      · by_cases h2 : (doc.hierarchyWeight.isSome = true
            ∧ pyEqWeight doc.hierarchyWeight rule.level = true)
        · exact ⟨true, by simp [_is_ineo_record, h, hmem, hget, h1, h2]⟩
        · cases hd : rule.default with
          | none =>
            exact ⟨false, by simp [_is_ineo_record, h, hmem, hget, h1, h2, hd]⟩
          | some d =>
            exact ⟨d, by simp [_is_ineo_record, h, hmem, hget, h1, h2, hd]⟩
    · exact ⟨m.default, by simp [_is_ineo_record, h, hmem]⟩

/-- Record with no dataProvider field. -/
def docC7 : Doc := ⟨"r4", none, some "P1", some (JVal.int 0)⟩

/-- C7 witness: on a concrete well-formed registry, the providerless record
resolves to the error and the registered record docC4 resolves to a
boolean. -/
theorem c7_raises_iff_provider_missing_witness :
    _is_ineo_record docC7 mapC4 =
      Except.error "Provider name is missing in the Solr record."
    ∧ ∃ b : Bool, _is_ineo_record docC4 mapC4 = Except.ok b :=
  ⟨(c7_raises_iff_provider_missing docC7 mapC4 rfl).1 rfl,
   (c7_raises_iff_provider_missing docC4 mapC4 rfl).2 "Acme" rfl⟩

/-- C8: with numFound = 25000 and page size 10000 the fetch submits exactly
the three page requests at starts 0, 10000 and 20000 (each with rows =
10000, so they cover [0,10000), [10000,20000) and [20000,25000)), and when
each page returns its full slice the merged result has exactly numFound
records. -/
theorem c8_pagination (page : Nat → Nat → List Doc)
    (hfull : ∀ s ∈ pageStarts 25000, (page s 10000).length
      = min 10000 (25000 - s)) :
    pageStarts 25000 = [0, 10000, 20000]
    ∧ (fetch_solr_records page 25000).length = 25000 := by
  have hps : pageStarts 25000 = [0, 10000, 20000] := by decide
  refine ⟨hps, ?_⟩
  have h0 := hfull 0 (by rw [hps]; simp)
  have h1 := hfull 10000 (by rw [hps]; simp)
  have h2 := hfull 20000 (by rw [hps]; simp)
  norm_num at h0 h1 h2
  simp [fetch_solr_records, hps, h0, h1, h2]

/-- A page oracle returning the full slice of a 25000-record result set. -/
def pageFullC8 : Nat → Nat → List Doc :=
  fun s _ => List.replicate (min 10000 (25000 - s)) ⟨"d", none, none, none⟩

/-- C8 witness: with full pages the merged fetch of 25000 records has
exactly 25000 entries, from exactly the three page starts. -/
theorem c8_pagination_witness :
    pageStarts 25000 = [0, 10000, 20000]
    ∧ (fetch_solr_records pageFullC8 25000).length = 25000 :=
  c8_pagination pageFullC8 (fun s _ => by simp [pageFullC8])

/-- C9: the first loop of parse_mapping_file has no effect: the function is
extensionally equal to the version with that loop removed, so the returned
registry is fully determined by the root default attribute and the two
_add_provider loops. -/
theorem c9_first_loop_is_dead :
    ∀ tree : XMLNode,
      parse_mapping_file tree = parse_mapping_file_without_first_loop tree :=
  fun _ => rfl

/-- C10: the source's unguarded profile and level branches (which test the
record-side value twice and never the rule-side value) compute the same
function as the spec's fully guarded steps under exact equality: a non-null
record value never equals a null rule value. -/
theorem c10_unguarded_equals_spec_guarded (doc : Doc) (m : Providers) :
    _is_ineo_record doc m = _is_ineo_record_spec_guarded doc m := by
  cases hdp : doc.dataProvider with
  | none => simp only [_is_ineo_record, _is_ineo_record_spec_guarded, hdp]
  | some n =>
    simp only [_is_ineo_record, _is_ineo_record_spec_guarded, hdp]
    by_cases hmem : (some n) ∈ m.provider_keys
    · rw [if_pos hmem, if_pos hmem]
      cases hget : m.get_provider n with
      | none => simp only [hget]
      | some rule =>
        simp only [hget]
        have g1 : (doc.componentProfileId.isSome && doc.componentProfileId.isSome
            && (doc.componentProfileId == rule.profile))
            = (rule.profile.isSome && doc.componentProfileId.isSome
            && (doc.componentProfileId == rule.profile)) := by
          cases doc.componentProfileId <;> cases rule.profile <;> rfl
        have g2 : (doc.hierarchyWeight.isSome && doc.hierarchyWeight.isSome
            && pyEqWeight doc.hierarchyWeight rule.level)
            = (rule.level.isSome && doc.hierarchyWeight.isSome
            && pyEqWeight doc.hierarchyWeight rule.level) := by
          cases hw : doc.hierarchyWeight with
          | none => cases rule.level <;> rfl
          | some v => cases rule.level <;> cases v <;> rfl
        rw [g1, g2]
    · rw [if_neg hmem, if_neg hmem]

/-- Registry with one rule, level 0 and no profile or default, under global
default false: the mapping file's "The Language Archive" example. -/
def mapC1 : Providers :=
  ⟨false, [⟨some "The Language Archive", none, some 0, none⟩],
   [some "The Language Archive"]⟩

/-- Record of that provider whose hierarchy weight arrives as the string
"0". -/
def docC1 : Doc :=
  ⟨"r5", some "The Language Archive", none, some (JVal.str "0")⟩

/-- C1: the code compares the record level to the rule level with plain
Python equality, under which the string "0" never equals the integer 0. At
this registered record the two levels are numerically equal after
normalization, yet the resolver returns false (it falls through past the
level branch to the null-default fallthrough) instead of the true the spec
requires. -/
theorem c1_level_string_never_matches :
    _is_ineo_record docC1 mapC1 = Except.ok false
    ∧ normWeight (JVal.str "0") = some 0
    ∧ mapC1.get_provider "The Language Archive"
      = some ⟨some "The Language Archive", none, some 0, none⟩ := by
  refine ⟨?_, by decide, ?_⟩ <;> rfl

/-- Document with no dataProvider field. -/
def docC2a : Doc := ⟨"a", none, none, none⟩

/-- Resolvable document of a registered provider. -/
def docC2b : Doc := ⟨"b", some "DANS", none, none⟩

/-- Registry registering docC2b's provider with default true. -/
def mapC2 : Providers :=
  ⟨false, [⟨some "DANS", none, none, some true⟩], [some "DANS"]⟩

/-- C2: `_label_ineo_records` wraps `_is_ineo_record` in no exception
handler, so the first record's resolution failure aborts the whole pass:
the batch returns the error alone — no tallies and no payload — although
the second record on its own resolves to true. -/
theorem c2_record_error_aborts_batch :
    _label_ineo_records [docC2a, docC2b] mapC2
      = Except.error "Provider name is missing in the Solr record."
    ∧ _is_ineo_record docC2b mapC2 = Except.ok true :=
  ⟨rfl, rfl⟩

/-- An update outcome oracle under which the update of record r1 fails (the
non-success response that raise_for_status turns into an exception) and
every other update succeeds. -/
def updC3 : UpdatePayload → Except String Unit :=
  fun p => if p.id = "r1" then Except.error "HTTP 500 from /update" else .ok ()

/-- C3: the update phase submits both updates and one of them fails, but
the aggregate outcome the function reports is `none`: the executor.map
iterator is never consumed, so the failure (and every success) is dropped
rather than counted with its record id and cause. -/
theorem c3_update_outcomes_discarded :
    label_ineo_records_update_phase updC3 [⟨"r1", true⟩, ⟨"r2", false⟩]
      = ([Except.error "HTTP 500 from /update", Except.ok ()], none) :=
  rfl

end IneoLabeling
